import Mathlib

/-!
Verification development for the pollmetry real-time polling core.

The definitions below are a shallow embedding of the vote ingestion and
tally pipeline: the database access layer (`server/storage.ts`, class
`DatabaseStorage`) and the Socket.IO handlers `audience:vote` and
`pollster:control` (`server/routes.ts`).  The database is modelled as an
explicit `Store` value holding the `questions` and `vote_events` tables;
timestamps are integers (milliseconds since the epoch) and each operation
that reads the wall clock takes the current time `now` as an argument.
-/

namespace Pollmetry

/-- Question type: the `type` column, one of `multiple_choice`, `slider`, `emoji`. -/
inductive QType where
  | multiple_choice
  | slider
  | emoji
deriving DecidableEq

/-- Question lifecycle state: the `state` column, `DRAFT`, `LIVE` or `CLOSED`. -/
inductive QState where
  | DRAFT
  | LIVE
  | CLOSED
deriving DecidableEq

/-! The `segment` column is plain `text` (no database constraint), and the
handlers store the raw handshake-query/body value into it after a
compile-time-only cast, so any string is storable; it is modelled as
`String`.  The intended values are `"room"` and `"remote"` (the TypeScript
type `Segment = "room" | "remote"`). -/

/-- The `payload_json` JSON object of a vote event, restricted to the fields the
server ever reads.  `optionId` is the field the tally reads for multiple-choice
votes (`payload.optionId`), `value` the slider value, `emoji` the emoji string.
`optionIndex` is carried so that payloads using that field name can be
represented; the tally code never reads it.  A field set to `none` models an
absent JSON field (JavaScript `undefined`). -/
structure Payload where
  optionId : Option Int
  value : Option Int
  emoji : Option String
  optionIndex : Option Int
deriving DecidableEq

/-- A row of the `questions` table (only the columns the core reads). -/
structure Question where
  id : String
  sessionId : String
  qtype : QType
  state : QState
  isRevealed : Bool
  isFrozen : Bool
  openedAt : Option Int
  closedAt : Option Int
deriving DecidableEq

/-- A row of the `vote_events` table. -/
structure VoteEvent where
  sessionId : String
  questionId : String
  voterTokenHash : String
  segment : String
  payload : Payload
  createdAt : Int
deriving DecidableEq

/-- The database state visible to the core: the `questions` and `vote_events`
tables, as lists in insertion order. -/
structure Store where
  questions : List Question
  votes : List VoteEvent
deriving DecidableEq

/-- `DatabaseStorage.getQuestion`: `select * from questions where id = ?`
(first matching row or undefined). -/
def getQuestion (st : Store) (qid : String) : Option Question :=
  st.questions.find? (fun q => q.id == qid)

/-- The rows of `vote_events` with the given `question_id`, in insertion order
(the select in `DatabaseStorage.getVoteTally`). -/
def questionVotes (st : Store) (qid : String) : List VoteEvent :=
  st.votes.filter (fun v => v.questionId == qid)

/-- `DatabaseStorage.hasVoted`: whether any vote event exists for the given
`(questionId, voterTokenHash)` pair. -/
def hasVoted (st : Store) (qid tok : String) : Bool :=
  st.votes.any (fun v => v.questionId == qid && v.voterTokenHash == tok)

/-- `DatabaseStorage.createVoteEvent`: insert one row into `vote_events`. -/
def createVoteEvent (st : Store) (v : VoteEvent) : Store :=
  { st with votes := st.votes ++ [v] }

/-- The per-row update performed by `DatabaseStorage.updateQuestionState`:
`LIVE` stamps `openedAt` and clears `closedAt`, `CLOSED` stamps `closedAt`,
`DRAFT` clears both. -/
def applyState (s : QState) (now : Int) (q : Question) : Question :=
  match s with
  | .LIVE => { q with state := .LIVE, openedAt := some now, closedAt := none }
  | .CLOSED => { q with state := .CLOSED, closedAt := some now }
  | .DRAFT => { q with state := .DRAFT, openedAt := none, closedAt := none }

/-- Row-level effect of `updateQuestionState` on a single row:
update it when its id matches, leave it unchanged otherwise. -/
def updQ (qid : String) (s : QState) (now : Int) (q : Question) : Question :=
  if q.id == qid then applyState s now q else q

/-- `DatabaseStorage.updateQuestionState`: `update questions set ... where id = ?`. -/
def updateQuestionState (st : Store) (qid : String) (s : QState) (now : Int) : Store :=
  { st with questions := st.questions.map (updQ qid s now) }

/-- `DatabaseStorage.updateQuestionRevealed`. -/
def updateQuestionRevealed (st : Store) (qid : String) (b : Bool) : Store :=
  { st with questions := st.questions.map (fun q =>
      if q.id == qid then { q with isRevealed := b } else q) }

/-- `DatabaseStorage.updateQuestionFrozen`. -/
def updateQuestionFrozen (st : Store) (qid : String) (b : Bool) : Store :=
  { st with questions := st.questions.map (fun q =>
      if q.id == qid then { q with isFrozen := b } else q) }

/-- The `set` clause of the update in `DatabaseStorage.resetQuestionVotes`:
`state = DRAFT`, `isRevealed = false`, `isFrozen = false`, `openedAt = null`,
`closedAt = null`. -/
def resetFields (q : Question) : Question :=
  { q with state := .DRAFT, isRevealed := false, isFrozen := false,
           openedAt := none, closedAt := none }

/-- `DatabaseStorage.resetQuestionVotes`: delete all vote events of the
question, then apply `resetFields` to the question row. -/
def resetQuestionVotes (st : Store) (qid : String) : Store :=
  { questions := st.questions.map (fun q => if q.id == qid then resetFields q else q),
    votes := st.votes.filter (fun v => !(v.questionId == qid)) }

/-- `DatabaseStorage.getQuestionsBySession`: the rows of `questions` with the
given `session_id`. -/
def questionsBySession (st : Store) (sid : String) : List Question :=
  st.questions.filter (fun q => q.sessionId == sid)

/-- `DatabaseStorage.getVotesPerSecond`: the number of the question's vote
events with `createdAt > now - windowSeconds * 1000`, divided by
`windowSeconds`. -/
def getVotesPerSecond (st : Store) (qid : String) (windowSeconds : Int) (now : Int) : Rat :=
  (((st.votes.filter (fun v =>
      v.questionId == qid && decide (v.createdAt > now - windowSeconds * 1000))).length : Rat)
    / (windowSeconds : Rat))

/-- The tally object built by `DatabaseStorage.getVoteTally`.  `byOption` and
the two segment maps are JavaScript objects, modelled as association lists in
key insertion order; `none` models a field that is absent from the returned
object (as in the missing-question branch). -/
structure VoteTally where
  total : Nat
  room : Nat
  remote : Nat
  byOption : Option (List (String × Nat))
  roomByOption : Option (List (String × Nat))
  remoteByOption : Option (List (String × Nat))
  average : Option Rat
  votesPerSecond : Option Rat
deriving DecidableEq

/-- JavaScript `m[k] = (m[k] || 0) + 1` on an object modelled as an
association list: increment an existing key in place, append a new key. -/
def bump (m : List (String × Nat)) (k : String) : List (String × Nat) :=
  match m with
  | [] => [(k, 1)]
  | (k', n) :: rest => if k' == k then (k', n + 1) :: rest else (k', n) :: bump rest k

/-- Mutable loop state of the `for (const vote of votes)` loop in
`getVoteTally` (segment counters, option maps, the slider accumulator and
the dynamically attached `average` field). -/
structure TallyAcc where
  room : Nat
  remote : Nat
  byOption : List (String × Nat)
  roomBy : List (String × Nat)
  remoteBy : List (String × Nat)
  sliderTotal : Int
  average : Option Rat
deriving DecidableEq

/-- `tally.bySegment[segment]++` — executed for every vote.  `bySegment` is
the object `{room, remote}`; a segment string other than `"room"` or
`"remote"` increments neither named counter (the JavaScript `++` on the
absent key stores `NaN` under that key instead). -/
def segStep (acc : TallyAcc) (v : VoteEvent) : TallyAcc :=
  if v.segment == "room" then { acc with room := acc.room + 1 }
  else if v.segment == "remote" then { acc with remote := acc.remote + 1 }
  else acc

/-- The type-dependent branch of the loop body: multiple-choice counts
`payload.optionId` (when defined) into `byOption` and
`bySegmentAndOption[segment]`; slider accumulates `payload.value` (when
defined) and sets `average = sliderTotal / total`; emoji counts
`payload.emoji` (when truthy, i.e. present and nonempty).  The
`bySegmentAndOption[segment][key]` update dereferences the `{room, remote}`
object at the raw segment string, so on any other segment value the source
fails with a TypeError before producing a tally; such writes are skipped
here, and every claim about `byOption` totals below restricts the log to
`"room"`/`"remote"` segments, where the two behaviors agree. -/
def optStep (qt : QType) (total : Nat) (acc : TallyAcc) (v : VoteEvent) : TallyAcc :=
  match qt with
  | .multiple_choice =>
    match v.payload.optionId with
    | some oid =>
      let k := toString oid
      { acc with byOption := bump acc.byOption k,
                 roomBy := if v.segment == "room" then bump acc.roomBy k else acc.roomBy,
                 remoteBy := if v.segment == "remote" then bump acc.remoteBy k else acc.remoteBy }
    | none => acc
  | .slider =>
    match v.payload.value with
    | some val =>
      let s := acc.sliderTotal + val
      { acc with sliderTotal := s, average := some ((s : Rat) / (total : Rat)) }
    | none => acc
  | .emoji =>
    match v.payload.emoji with
    | some e =>
      if e = "" then acc
      else
        { acc with byOption := bump acc.byOption e,
                   roomBy := if v.segment == "room" then bump acc.roomBy e else acc.roomBy,
                   remoteBy := if v.segment == "remote" then bump acc.remoteBy e else acc.remoteBy }
    | none => acc

/-- One iteration of the `getVoteTally` loop. -/
def tallyStep (qt : QType) (total : Nat) (acc : TallyAcc) (v : VoteEvent) : TallyAcc :=
  optStep qt total (segStep acc v) v

/-- The initial tally object before the loop. -/
def initAcc : TallyAcc :=
  { room := 0, remote := 0, byOption := [], roomBy := [], remoteBy := [],
    sliderTotal := 0, average := none }

/-- `DatabaseStorage.getVoteTally`.  A missing question yields
`{ total: 0, bySegment: { room: 0, remote: 0 } }` with no further fields;
otherwise all events of the question are scanned and
`votesPerSecond = getVotesPerSecond(questionId, 10)` is attached. -/
def getVoteTally (st : Store) (qid : String) (now : Int) : VoteTally :=
  match getQuestion st qid with
  | none =>
    { total := 0, room := 0, remote := 0, byOption := none, roomByOption := none,
      remoteByOption := none, average := none, votesPerSecond := none }
  | some q =>
    let votes := questionVotes st qid
    let acc := votes.foldl (tallyStep q.qtype votes.length) initAcc
    { total := votes.length, room := acc.room, remote := acc.remote,
      byOption := some acc.byOption, roomByOption := some acc.roomBy,
      remoteByOption := some acc.remoteBy, average := acc.average,
      votesPerSecond := some (getVotesPerSecond st qid 10 now) }

/-- Outcome of the `audience:vote` socket handler: the two
`socket.emit("error", ...)` messages, or `vote:confirmed` together with the
new store and the tally broadcast as `session:results`. -/
inductive VoteOutcome where
  | errCannotVote
  | errAlreadyVoted
  | confirmed (st : Store) (tally : VoteTally)
deriving DecidableEq

/-- The `audience:vote` handler (`server/routes.ts`): reject when the question
is missing, not `LIVE`, or frozen ("Cannot vote on this question"); reject when
the voter already voted on the question ("Already voted"); otherwise insert the
vote event and broadcast the recomputed tally. -/
def audienceVote (st : Store) (qid : String) (payload : Payload)
    (voterToken : String) (segment : String) (now : Int) : VoteOutcome :=
  match getQuestion st qid with
  | none => .errCannotVote
  | some q =>
    if q.state ≠ QState.LIVE ∨ q.isFrozen then .errCannotVote
    else if hasVoted st qid voterToken then .errAlreadyVoted
    else
      let st' := createVoteEvent st
        { sessionId := q.sessionId, questionId := qid, voterTokenHash := voterToken,
          segment := segment, payload := payload, createdAt := now }
      .confirmed st' (getVoteTally st' qid now)

/-- Events emitted to the session room by the `pollster:control` handler. -/
inductive Broadcast where
  | currentQuestion (payload : Option (Question × VoteTally))
  | questionState (qid : String) (state : QState) (isRevealed isFrozen : Bool)
  | results (qid : String) (tally : VoteTally)
  | errorMsg (msg : String)
deriving DecidableEq

/-- One iteration of the force-close loop in the `go_live` case: close `qq`
when it is `LIVE` and is not the target question. -/
def closeStep (tid : String) (now : Int) (s : Store) (qq : Question) : Store :=
  if qq.state == QState.LIVE && qq.id != tid then updateQuestionState s qq.id .CLOSED now else s

/-- The store mutation of the `go_live` case: fetch the session's questions,
force-close every other `LIVE` one, then set the target `LIVE`. -/
def goLiveStore (st : Store) (sid tid : String) (now : Int) : Store :=
  updateQuestionState ((questionsBySession st sid).foldl (closeStep tid now) st) tid .LIVE now

/-- The `pollster:control` handler (`server/routes.ts`): look up the question
(returning silently when absent), dispatch on the action string — the switch
has no default case, so an unrecognized action mutates nothing — then always
broadcast `session:question_state` with the (possibly updated) question and,
when that question is `LIVE`, a fresh `session:results`. -/
def pollsterControl (st : Store) (action : String) (qid : String) (now : Int) :
    Store × List Broadcast :=
  match getQuestion st qid with
  | none => (st, [])
  | some question =>
    let step : Store × Question × List Broadcast :=
      if action == "go_live" then
        let st2 := goLiveStore st question.sessionId qid now
        let upd := (getQuestion st2 qid).getD question
        (st2, upd, [.currentQuestion (some (upd, getVoteTally st2 qid now))])
      else if action == "close" then
        let st2 := updateQuestionState st qid .CLOSED now
        (st2, (getQuestion st2 qid).getD question, [.currentQuestion none])
      else if action == "reveal" then
        let st2 := updateQuestionRevealed st qid true
        let upd := (getQuestion st2 qid).getD question
        (st2, upd,
          if upd.state == QState.CLOSED || upd.state == QState.DRAFT then
            [.currentQuestion (some (upd, getVoteTally st2 qid now))]
          else [])
      else if action == "hide" then
        let st2 := updateQuestionRevealed st qid false
        let upd := (getQuestion st2 qid).getD question
        (st2, upd,
          if upd.state == QState.CLOSED || upd.state == QState.DRAFT then
            [.currentQuestion none]
          else [])
      else if action == "freeze" then
        let st2 := updateQuestionFrozen st qid true
        (st2, (getQuestion st2 qid).getD question, [])
      else if action == "unfreeze" then
        let st2 := updateQuestionFrozen st qid false
        (st2, (getQuestion st2 qid).getD question, [])
      else if action == "reset" then
        let st2 := resetQuestionVotes st qid
        (st2, (getQuestion st2 qid).getD question, [])
      else
        (st, question, [])
    let st' := step.1
    let upd := step.2.1
    let bcasts := step.2.2 ++ [.questionState qid upd.state upd.isRevealed upd.isFrozen]
    let bcasts := if upd.state == QState.LIVE then
        bcasts ++ [.results qid (getVoteTally st' qid now)]
      else bcasts
    (st', bcasts)

/-- Sum of the counts stored in a JavaScript counter object
(an association list), e.g. `sum(tally.byOption.values())`. -/
def sumCounts (m : List (String × Nat)) : Nat :=
  (m.map Prod.snd).sum

/-- Whether a payload carries the field the tally loop reads for the given
question type: `optionId` for multiple-choice, a truthy `emoji` for emoji
(the slider clause of the tally never touches `byOption`). -/
def payloadTallied : QType → Payload → Bool
  | .multiple_choice, p => p.optionId.isSome
  | .emoji, p =>
    match p.emoji with
    | some e => decide (e ≠ "")
    | none => false
  | .slider, _ => true

/-- At most one question of the session is in state `LIVE`. -/
def atMostOneLive (st : Store) (sid : String) : Prop :=
  st.questions.countP (fun q => q.sessionId == sid && q.state == QState.LIVE) ≤ 1

/-- Apply a sequence of `pollster:control` messages with action `go_live`
(one per target question id), keeping the store. -/
def goLiveSeq (st : Store) (targets : List String) (now : Int) : Store :=
  targets.foldl (fun s t => (pollsterControl s "go_live" t now).1) st

/-- Element-wise view of the force-close loop of `go_live`: the composite
effect on one question row of iterating the per-snapshot-entry updates. -/
def closePt (tid : String) (now : Int) (qs : List Question) (x : Question) : Question :=
  qs.foldl
    (fun x qq =>
      if qq.state == QState.LIVE && qq.id != tid then updQ qq.id QState.CLOSED now x else x)
    x

/-! Concrete fixtures used by the witnesses and counterexamples below. -/

/-- Fixture: an emoji-reaction question in state `LIVE`, not frozen. -/
def c1Question : Question :=
  { id := "q1", sessionId := "s1", qtype := .emoji, state := .LIVE,
    isRevealed := false, isFrozen := false, openedAt := some 0, closedAt := none }

/-- Fixture: a prior emoji vote by voter `alice` on `q1`. -/
def c1Vote : VoteEvent :=
  { sessionId := "s1", questionId := "q1", voterTokenHash := "alice", segment := "room",
    payload := { optionId := none, value := none, emoji := some "fire", optionIndex := none },
    createdAt := 1000 }

/-- Fixture: store holding `q1` and alice's first reaction. -/
def c1Store : Store := { questions := [c1Question], votes := [c1Vote] }

/-- Fixture: a two-option multiple-choice question in state `LIVE`. -/
def c2Question : Question :=
  { id := "q2", sessionId := "s2", qtype := .multiple_choice, state := .LIVE,
    isRevealed := false, isFrozen := false, openedAt := some 0, closedAt := none }

/-- Fixture: a stored multiple-choice vote whose payload carries only
`optionIndex` (not the `optionId` field the tally reads). -/
def c2BadEvent : VoteEvent :=
  { sessionId := "s2", questionId := "q2", voterTokenHash := "A", segment := "room",
    payload := { optionId := none, value := none, emoji := none, optionIndex := some 0 },
    createdAt := 0 }

/-- Fixture: store with one multiple-choice vote whose payload the tally
cannot attribute to an option. -/
def c2Store : Store := { questions := [c2Question], votes := [c2BadEvent] }

/-- Fixture: a stored vote whose segment column holds the junk string
`"banana"` (reachable: the handler stores the raw handshake-query value into
the unconstrained text column). -/
def c2JunkEvent : VoteEvent :=
  { sessionId := "s2", questionId := "q2", voterTokenHash := "C", segment := "banana",
    payload := { optionId := none, value := none, emoji := none, optionIndex := none },
    createdAt := 0 }

/-- Fixture: store with one `optionIndex`-only vote from `room` and one
empty-payload vote with a junk segment. -/
def c2MixedStore : Store := { questions := [c2Question], votes := [c2BadEvent, c2JunkEvent] }

/-- Fixture: a stored multiple-choice vote carrying `optionId`. -/
def c2GoodEvent : VoteEvent :=
  { sessionId := "s2", questionId := "q2", voterTokenHash := "B", segment := "remote",
    payload := { optionId := some 1, value := none, emoji := none, optionIndex := none },
    createdAt := 0 }

/-- Fixture: store where every stored payload carries `optionId`. -/
def c2GoodStore : Store := { questions := [c2Question], votes := [c2GoodEvent] }

/-- Fixture: a two-option multiple-choice question in state `DRAFT`. -/
def c3Question : Question :=
  { id := "q3", sessionId := "s3", qtype := .multiple_choice, state := .DRAFT,
    isRevealed := false, isFrozen := false, openedAt := none, closedAt := none }

/-- Fixture: store holding `q3` before the moderator takes it live. -/
def c3Store0 : Store := { questions := [c3Question], votes := [] }

/-- Fixture: the store after the moderator sends `go_live` for `q3` at t=0. -/
def c3StoreLive : Store := (pollsterControl c3Store0 "go_live" "q3" 0).1

/-- Fixture: `q3` as it stands after `go_live` at t=0. -/
def c3QuestionLive : Question :=
  { c3Question with state := .LIVE, openedAt := some 0, closedAt := none }

/-- Fixture: voter A's payload `{optionId: 0}` (what the client sends). -/
def c3PayloadA : Payload :=
  { optionId := some 0, value := none, emoji := none, optionIndex := none }

/-- Fixture: voter B's payload `{optionId: 1}`. -/
def c3PayloadB : Payload :=
  { optionId := some 1, value := none, emoji := none, optionIndex := none }

/-- Fixture: a payload written as the spec's `{optionIndex: 0}`. -/
def c3PayloadIdx : Payload :=
  { optionId := none, value := none, emoji := none, optionIndex := some 0 }

/-- Fixture: the vote event recorded for voter A. -/
def c3EventA : VoteEvent :=
  { sessionId := "s3", questionId := "q3", voterTokenHash := "A", segment := "room",
    payload := c3PayloadA, createdAt := 1000 }

/-- Fixture: the vote event recorded for voter B. -/
def c3EventB : VoteEvent :=
  { sessionId := "s3", questionId := "q3", voterTokenHash := "B", segment := "remote",
    payload := c3PayloadB, createdAt := 2000 }

/-- Fixture: the vote event recorded for an `{optionIndex: 0}` submission. -/
def c3EventIdx : VoteEvent :=
  { sessionId := "s3", questionId := "q3", voterTokenHash := "A", segment := "room",
    payload := c3PayloadIdx, createdAt := 1000 }

/-- Fixture: store after voter A's vote. -/
def c3StoreA : Store := { questions := [c3QuestionLive], votes := [c3EventA] }

/-- Fixture: store after voter A's and voter B's votes. -/
def c3StoreB : Store := { questions := [c3QuestionLive], votes := [c3EventA, c3EventB] }

/-- Fixture: a frozen `LIVE` multiple-choice question. -/
def c4Question : Question :=
  { id := "q4", sessionId := "s4", qtype := .multiple_choice, state := .LIVE,
    isRevealed := false, isFrozen := true, openedAt := some 0, closedAt := none }

/-- Fixture: a prior vote by voter A on the now-frozen `q4`. -/
def c4Vote : VoteEvent :=
  { sessionId := "s4", questionId := "q4", voterTokenHash := "A", segment := "room",
    payload := c3PayloadA, createdAt := 500 }

/-- Fixture: store holding the frozen question and A's prior vote. -/
def c4Store : Store := { questions := [c4Question], votes := [c4Vote] }

/-- Fixture: a `LIVE` question of session `s5`. -/
def c5Q1 : Question :=
  { id := "a", sessionId := "s5", qtype := .multiple_choice, state := .LIVE,
    isRevealed := false, isFrozen := false, openedAt := some 0, closedAt := none }

/-- Fixture: a `DRAFT` question of session `s5`. -/
def c5Q2 : Question :=
  { id := "b", sessionId := "s5", qtype := .slider, state := .DRAFT,
    isRevealed := false, isFrozen := false, openedAt := none, closedAt := none }

/-- Fixture: a session with one `LIVE` and one `DRAFT` question. -/
def c5Store : Store := { questions := [c5Q1, c5Q2], votes := [] }

/-- Fixture: a `LIVE` emoji question with one vote at t=0. -/
def c6Question : Question :=
  { id := "q6", sessionId := "s6", qtype := .emoji, state := .LIVE,
    isRevealed := false, isFrozen := false, openedAt := some 0, closedAt := none }

/-- Fixture: the single vote on `q6`, created at t=0. -/
def c6Vote : VoteEvent :=
  { sessionId := "s6", questionId := "q6", voterTokenHash := "A", segment := "room",
    payload := { optionId := none, value := none, emoji := some "up", optionIndex := none },
    createdAt := 0 }

/-- Fixture: store holding `q6` and its one vote. -/
def c6Store : Store := { questions := [c6Question], votes := [c6Vote] }

/-- Fixture: a `DRAFT`, revealed, unfrozen question for control messages. -/
def c7Question : Question :=
  { id := "q7", sessionId := "s7", qtype := .multiple_choice, state := .DRAFT,
    isRevealed := true, isFrozen := false, openedAt := none, closedAt := none }

/-- Fixture: store holding only `q7`. -/
def c7Store : Store := { questions := [c7Question], votes := [] }

/-- Fixture: a `LIVE` emoji question receiving a burst of votes. -/
def c8Question : Question :=
  { id := "q8", sessionId := "s8", qtype := .emoji, state := .LIVE,
    isRevealed := false, isFrozen := false, openedAt := some 0, closedAt := none }

/-- Fixture: an emoji vote on `q8` created at time `t`. -/
def c8Event (t : Int) : VoteEvent :=
  { sessionId := "s8", questionId := "q8", voterTokenHash := "tok" ++ toString t,
    segment := "room",
    payload := { optionId := none, value := none, emoji := some "up", optionIndex := none },
    createdAt := t }

/-- Fixture: 15 votes spread over the first 3 seconds plus one stale vote
far outside the 10-second window. -/
def c8Store : Store :=
  { questions := [c8Question],
    votes := (List.range 15).map (fun i => c8Event (200 * ((i : Int) + 1))) ++ [c8Event (-20000)] }

/-- Fixture: a `CLOSED` question with both flags set and both stamps present. -/
def c9Question : Question :=
  { id := "q9", sessionId := "s9", qtype := .multiple_choice, state := .CLOSED,
    isRevealed := true, isFrozen := true, openedAt := some 0, closedAt := some 500 }

/-- Fixture: a vote on `q9` from before it closed. -/
def c9Vote : VoteEvent :=
  { sessionId := "s9", questionId := "q9", voterTokenHash := "A", segment := "room",
    payload := c3PayloadA, createdAt := 100 }

/-- Fixture: store holding `q9` and its vote. -/
def c9Store : Store := { questions := [c9Question], votes := [c9Vote] }

/-- Fixture: a store with no questions at all. -/
def c10Store : Store := { questions := [], votes := [] }

/-! Claim theorems. -/

/-- C1: the claim states that a second vote by the same voter identity on a
`LIVE`, unfrozen emoji-reaction question is accepted and appended, the
duplicate check applying only to non-emoji types.  The `audience:vote`
handler of `server/routes.ts` calls `hasVoted` before every insert without
branching on the question type, so voter `alice`, who already reacted to the
emoji question `q1`, is rejected with "Already voted".  (Sibling copies of
the same handler in the repository guard the check with
`if (question.type !== "emoji")`, matching the claim; the handler the claim
cites dropped that guard.) -/
theorem c1_emoji_duplicate_rejected :
    audienceVote c1Store "q1" c1Vote.payload "alice" "room" 2000
      = VoteOutcome.errAlreadyVoted := by
  decide

/-- C2 counterexample: a multiple-choice question with two stored votes — one
from segment `room` whose payload carries `optionIndex` but not `optionId`,
and one with empty payload whose segment column holds the junk string
`"banana"` — has `tally.total = 2` while `bySegment.room + bySegment.remote
= 1` (the junk segment increments neither bucket) and the counts in
`tally.byOption` sum to `0`: both claimed identities fail for a reachable
event log, refuting the claim's quantification over all stored events
"whatever payload each carries". -/
theorem c2_tally_byOption_gap :
    (getVoteTally c2MixedStore "q2" 0).total = 2
      ∧ (getVoteTally c2MixedStore "q2" 0).room = 1
      ∧ (getVoteTally c2MixedStore "q2" 0).remote = 0
      ∧ sumCounts ((getVoteTally c2MixedStore "q2" 0).byOption.getD []) = 0 := by
  decide

/-- C3 counterexample: running the claimed scenario with voter A's payload
written as the spec's `{optionIndex: 0}`, the vote is accepted but the
resulting tally has `byOption = {}` — there is no `"0" ↦ 1` entry (and no
`"1" ↦ 0` entry either), because `getVoteTally` reads `payload.optionId`,
not `optionIndex`, and never materializes zero counts. -/
theorem c3_optionIndex_not_counted :
    audienceVote c3StoreLive "q3" c3PayloadIdx "A" "room" 1000
      = VoteOutcome.confirmed { questions := [c3QuestionLive], votes := [c3EventIdx] }
          { total := 1, room := 1, remote := 0, byOption := some [],
            roomByOption := some [], remoteByOption := some [],
            average := none, votesPerSecond := some (1 / 10) } := by
  with_unfolding_all rfl

/-- C3 (amended): end-to-end scenario against the code as written: `q3`
(multiple-choice, 2 options) goes live; voter A submits `{optionId: 0}` from
segment `room` and the tally becomes
`{total: 1, bySegment: {room: 1, remote: 0}, byOption: {"0": 1}}` (the key is
the option index rendered as a string, and unvoted options get no zero
entry); A's second submission fails with "Already voted"; voter B submits
`{optionId: 1}` from `remote` and the tally becomes
`{total: 2, bySegment: {room: 1, remote: 1}, byOption: {"0": 1, "1": 1}}`. -/
theorem c3_scenario_amended :
    audienceVote c3StoreLive "q3" c3PayloadA "A" "room" 1000
        = VoteOutcome.confirmed c3StoreA
            { total := 1, room := 1, remote := 0, byOption := some [("0", 1)],
              roomByOption := some [("0", 1)], remoteByOption := some [],
              average := none, votesPerSecond := some (1 / 10) }
      ∧ audienceVote c3StoreA "q3" c3PayloadA "A" "room" 1500
          = VoteOutcome.errAlreadyVoted
      ∧ audienceVote c3StoreA "q3" c3PayloadB "B" "remote" 2000
          = VoteOutcome.confirmed c3StoreB
              { total := 2, room := 1, remote := 1,
                byOption := some [("0", 1), ("1", 1)],
                roomByOption := some [("0", 1)], remoteByOption := some [("1", 1)],
                average := none, votesPerSecond := some (1 / 5) } := by
  refine ⟨by with_unfolding_all rfl, by decide, by with_unfolding_all rfl⟩

/-- C6 counterexample: with one vote on `q6` created at t=0 and no intervening
events, `getVoteTally` at clock reading 5000 ms reports
`votesPerSecond = 1/10` but at clock reading 20000 ms reports `0`: the result
is not identical in every field across two calls, because `votesPerSecond`
reads the wall clock. -/
theorem c6_vps_depends_on_clock :
    (getVoteTally c6Store "q6" 5000).votesPerSecond = some (1 / 10)
      ∧ (getVoteTally c6Store "q6" 20000).votesPerSecond = some 0 := by
  exact ⟨by with_unfolding_all rfl, by with_unfolding_all rfl⟩

/-- C7 counterexample: the control message with unknown action `"explode"` on
`q7` does not fail with `UnknownAction` — the switch in `pollster:control`
has no default case, so the handler emits no error at all; it leaves the
store unchanged and still rebroadcasts the question's unchanged state. -/
theorem c7_unknown_action_no_error :
    pollsterControl c7Store "explode" "q7" 0
      = (c7Store, [Broadcast.questionState "q7" QState.DRAFT true false]) := by
  decide

/-- C10: `getVoteTally` on a question id for which no question exists does not
fail; for every such id it returns the tally
`{total: 0, bySegment: {room: 0, remote: 0}}` with no `byOption`,
`bySegmentAndOption`, `average` or `votesPerSecond` fields. -/
theorem c10_missing_question_tally (st : Store) (qid : String) (now : Int)
    (h : getQuestion st qid = none) :
    getVoteTally st qid now
      = { total := 0, room := 0, remote := 0, byOption := none, roomByOption := none,
          remoteByOption := none, average := none, votesPerSecond := none } := by
  unfold getVoteTally
  rw [h]

/-- C10 witness: the empty store has no question `"zz"`, and the theorem
yields the bare tally there. -/
theorem c10_missing_question_tally_witness :
    getVoteTally c10Store "zz" 0
      = { total := 0, room := 0, remote := 0, byOption := none, roomByOption := none,
          remoteByOption := none, average := none, votesPerSecond := none } :=
  c10_missing_question_tally c10Store "zz" 0 (by decide)

/-- Auxiliary: the `audience:vote` handler when the question lookup
succeeds. -/
theorem audienceVote_some (st : Store) (qid : String) (p : Payload) (tok : String)
    (seg : String) (now : Int) (q : Question) (hq : getQuestion st qid = some q) :
    audienceVote st qid p tok seg now
      = if q.state ≠ QState.LIVE ∨ q.isFrozen = true then VoteOutcome.errCannotVote
        else if hasVoted st qid tok = true then VoteOutcome.errAlreadyVoted
        else
          VoteOutcome.confirmed
            (createVoteEvent st
              { sessionId := q.sessionId, questionId := qid, voterTokenHash := tok,
                segment := seg, payload := p, createdAt := now })
            (getVoteTally
              (createVoteEvent st
                { sessionId := q.sessionId, questionId := qid, voterTokenHash := tok,
                  segment := seg, payload := p, createdAt := now }) qid now) := by
  unfold audienceVote
  rw [hq]

/-- C4: the `audience:vote` handler checks its preconditions in order —
question exists, state is `LIVE`, not frozen (otherwise "Cannot vote on this
question", i.e. `QuestionNotVotable`) — before the duplicate check ("Already
voted", i.e. `DuplicateVote`).  In particular a frozen `LIVE` question makes
every submission fail with `QuestionNotVotable` even for a voter who already
voted, and once the question is `LIVE`, unfrozen and the voter has not voted,
the vote is recorded. -/
theorem c4_preconditions_order (st : Store) (qid : String) (p : Payload)
    (tok : String) (seg : String) (now : Int) :
    (getQuestion st qid = none →
      audienceVote st qid p tok seg now = VoteOutcome.errCannotVote)
    ∧ (∀ q, getQuestion st qid = some q → (q.state ≠ QState.LIVE ∨ q.isFrozen = true) →
        audienceVote st qid p tok seg now = VoteOutcome.errCannotVote)
    ∧ (audienceVote st qid p tok seg now = VoteOutcome.errAlreadyVoted →
        ∃ q, getQuestion st qid = some q ∧ q.state = QState.LIVE ∧ q.isFrozen = false
          ∧ hasVoted st qid tok = true)
    ∧ (∀ q, getQuestion st qid = some q → q.state = QState.LIVE → q.isFrozen = false →
        hasVoted st qid tok = false →
        audienceVote st qid p tok seg now
          = VoteOutcome.confirmed
              (createVoteEvent st
                { sessionId := q.sessionId, questionId := qid, voterTokenHash := tok,
                  segment := seg, payload := p, createdAt := now })
              (getVoteTally
                (createVoteEvent st
                  { sessionId := q.sessionId, questionId := qid, voterTokenHash := tok,
                    segment := seg, payload := p, createdAt := now }) qid now)) := by
  refine ⟨fun h => ?_, fun q hq hbad => ?_, fun h => ?_, fun q hq hs hf hv => ?_⟩
  · unfold audienceVote
    rw [h]
  · unfold audienceVote
    rw [hq]
    simp only [ne_eq]
    rw [if_pos]
    rcases hbad with hbad | hbad
    · exact Or.inl hbad
    · exact Or.inr (by simp [hbad])
  · rcases hq : getQuestion st qid with _ | q
    · unfold audienceVote at h
      rw [hq] at h
      exact absurd h (by simp)
    · rw [audienceVote_some st qid p tok seg now q hq] at h
      by_cases h1 : q.state ≠ QState.LIVE ∨ q.isFrozen = true
      · rw [if_pos h1] at h
        exact absurd h (by simp)
      · rw [if_neg h1] at h
        push_neg at h1
        by_cases h2 : hasVoted st qid tok = true
        · exact ⟨q, rfl, h1.1, by simpa using h1.2, h2⟩
        · rw [if_neg h2] at h
          exact absurd h (by simp)
  · rw [audienceVote_some st qid p tok seg now q hq]
    rw [if_neg (by simp [hs, hf]), if_neg (by simp [hv])]

/-- C4 witness: on the frozen `LIVE` question `q4`, voter A — who has already
voted — is rejected with "Cannot vote on this question", not "Already
voted". -/
theorem c4_preconditions_order_witness :
    audienceVote c4Store "q4" c3PayloadA "A" "room" 1000 = VoteOutcome.errCannotVote
      ∧ hasVoted c4Store "q4" "A" = true :=
  ⟨(c4_preconditions_order c4Store "q4" c3PayloadA "A" "room" 1000).2.1 c4Question
      (by decide) (Or.inr (by decide)), by decide⟩

/-- C6 (amended): `getVoteTally` is a pure function of the stored vote events,
the question's type and the current clock reading: every field except
`votesPerSecond` is independent of the clock (so two calls with no
intervening events agree on all of them), and two calls at the same clock
reading return identical results in every field; `votesPerSecond` itself may
change as time passes, since the 10-second window slides. -/
theorem c6_tally_pure_of_log_and_clock (st : Store) (qid : String) (now now' : Int) :
    ((getVoteTally st qid now).total = (getVoteTally st qid now').total
      ∧ (getVoteTally st qid now).room = (getVoteTally st qid now').room
      ∧ (getVoteTally st qid now).remote = (getVoteTally st qid now').remote
      ∧ (getVoteTally st qid now).byOption = (getVoteTally st qid now').byOption
      ∧ (getVoteTally st qid now).roomByOption = (getVoteTally st qid now').roomByOption
      ∧ (getVoteTally st qid now).remoteByOption = (getVoteTally st qid now').remoteByOption
      ∧ (getVoteTally st qid now).average = (getVoteTally st qid now').average)
    ∧ (now = now' → getVoteTally st qid now = getVoteTally st qid now') := by
  constructor
  · rcases hq : getQuestion st qid with _ | q <;>
      simp [getVoteTally, hq]
  · intro h
    rw [h]

/-- C6 witness: on the fixture store the clock-independent fields agree
between clock readings 5000 and 20000, and two calls at clock reading 7
agree in every field. -/
theorem c6_tally_pure_witness :
    (getVoteTally c6Store "q6" 5000).total = (getVoteTally c6Store "q6" 20000).total
      ∧ getVoteTally c6Store "q6" 7 = getVoteTally c6Store "q6" 7 :=
  ⟨(c6_tally_pure_of_log_and_clock c6Store "q6" 5000 20000).1.1,
   (c6_tally_pure_of_log_and_clock c6Store "q6" 7 7).2 rfl⟩

/-- C7 (amended): a control message whose action is outside
`{go_live, close, reveal, hide, freeze, unfreeze, reset}` mutates no state,
but no `UnknownAction` error is surfaced: the switch has no default case, so
the handler silently rebroadcasts the question's unchanged state (plus
current results when it is `LIVE`) and emits no error message. -/
theorem c7_unknown_action_silent (st : Store) (qid action : String) (now : Int)
    (q : Question) (hq : getQuestion st qid = some q)
    (ha : action ∉ (["go_live", "close", "reveal", "hide",
                     "freeze", "unfreeze", "reset"] : List String)) :
    pollsterControl st action qid now
      = (st, [Broadcast.questionState qid q.state q.isRevealed q.isFrozen]
          ++ (if q.state == QState.LIVE then
                [Broadcast.results qid (getVoteTally st qid now)]
              else [])) := by
  simp only [List.mem_cons, List.not_mem_nil, or_false, not_or] at ha
  obtain ⟨h1, h2, h3, h4, h5, h6, h7⟩ := ha
  unfold pollsterControl
  rw [hq]
  simp only [beq_eq_false_iff_ne.mpr h1, beq_eq_false_iff_ne.mpr h2,
    beq_eq_false_iff_ne.mpr h3, beq_eq_false_iff_ne.mpr h4,
    beq_eq_false_iff_ne.mpr h5, beq_eq_false_iff_ne.mpr h6,
    beq_eq_false_iff_ne.mpr h7, Bool.false_eq_true, if_false]
  rcases hs : q.state == QState.LIVE <;> simp [hs]

/-- C7 witness: the unknown action `"zap"` on `q7` leaves the store unchanged
and emits only the unchanged `question_state`. -/
theorem c7_unknown_action_silent_witness :
    pollsterControl c7Store "zap" "q7" 5
      = (c7Store, [Broadcast.questionState "q7" QState.DRAFT true false]) := by
  have h := c7_unknown_action_silent c7Store "q7" "zap" 5 c7Question (by decide) (by decide)
  simpa using h

/-- C8: for an existing question the tally's `votesPerSecond` equals the
number of the question's vote events created strictly later than
`now - windowSeconds` seconds, divided by `windowSeconds`, with
`windowSeconds = 10` hard-wired by `getVoteTally`. -/
theorem c8_votes_per_second (st : Store) (qid : String) (now : Int) (q : Question)
    (hq : getQuestion st qid = some q) :
    (getVoteTally st qid now).votesPerSecond
      = some (((st.votes.countP
          (fun v => v.questionId == qid && decide (v.createdAt > now - 10 * 1000))) : Rat)
            / 10) := by
  simp [getVoteTally, hq, getVotesPerSecond, List.countP_eq_length_filter]

/-- C8 witness: 15 votes inside the last 3 seconds (plus one stale vote far
outside the window, which is excluded) give `votesPerSecond = 15/10 = 3/2`
at clock reading 3000, even though 16 events are stored in total. -/
theorem c8_votes_per_second_witness :
    (getVoteTally c8Store "q8" 3000).votesPerSecond = some (3 / 2)
      ∧ (questionVotes c8Store "q8").length = 16 := by
  constructor
  · rw [c8_votes_per_second c8Store "q8" 3000 c8Question (by decide)]
    with_unfolding_all rfl
  · decide

/-- Auxiliary: finding the question after `resetQuestionVotes` returns the
reset row. -/
theorem find_reset_aux (l : List Question) (qid : String) :
    (l.map (fun q => if q.id == qid then resetFields q else q)).find? (fun q => q.id == qid)
      = (l.find? (fun q => q.id == qid)).map resetFields := by
  induction l with
  | nil => rfl
  | cons a l ih =>
    by_cases h : a.id = qid
    · simp [List.find?, resetFields, h]
    · simp only [List.map_cons, List.find?]
      rw [show (((if a.id == qid then resetFields a else a)).id == qid) = false by
        simp [h]]
      rw [show ((a.id == qid)) = false by simp [h]]
      exact ih

/-- Auxiliary: `getQuestion` after `resetQuestionVotes` on the same id. -/
theorem getQuestion_reset (st : Store) (qid : String) :
    getQuestion (resetQuestionVotes st qid) qid
      = (getQuestion st qid).map resetFields := by
  unfold getQuestion resetQuestionVotes
  exact find_reset_aux st.questions qid

/-- Auxiliary: no vote events of the question survive `resetQuestionVotes`. -/
theorem questionVotes_reset (st : Store) (qid : String) :
    questionVotes (resetQuestionVotes st qid) qid = [] := by
  unfold questionVotes resetQuestionVotes
  rw [List.filter_filter]
  simp

/-- Auxiliary: the store returned by the `reset` case of `pollster:control`. -/
theorem pollsterControl_reset (st : Store) (qid : String) (now : Int) (q : Question)
    (hq : getQuestion st qid = some q) :
    pollsterControl st "reset" qid now
      = (resetQuestionVotes st qid,
         [Broadcast.questionState qid QState.DRAFT false false]) := by
  unfold pollsterControl
  rw [hq]
  have hfind : getQuestion (resetQuestionVotes st qid) qid = some (resetFields q) := by
    rw [getQuestion_reset, hq]
    rfl
  simp [hfind, resetFields]

/-- C9: after a `reset` control action on an existing question, all of its
vote events are deleted (so the recomputed tally has `total = 0` at any later
clock reading), and the question row has `state = DRAFT`,
`isRevealed = false`, `isFrozen = false`, and `openedAt`/`closedAt` cleared
to null. -/
theorem c9_reset_clears (st : Store) (qid : String) (now now2 : Int) (q : Question)
    (hq : getQuestion st qid = some q) :
    questionVotes (pollsterControl st "reset" qid now).1 qid = []
      ∧ (getVoteTally (pollsterControl st "reset" qid now).1 qid now2).total = 0
      ∧ ∃ q', getQuestion (pollsterControl st "reset" qid now).1 qid = some q'
          ∧ q'.state = QState.DRAFT ∧ q'.isRevealed = false ∧ q'.isFrozen = false
          ∧ q'.openedAt = none ∧ q'.closedAt = none := by
  rw [pollsterControl_reset st qid now q hq]
  have hfind : getQuestion (resetQuestionVotes st qid) qid = some (resetFields q) := by
    rw [getQuestion_reset, hq]
    rfl
  refine ⟨questionVotes_reset st qid, ?_, resetFields q, hfind, rfl, rfl, rfl, rfl, rfl⟩
  simp [getVoteTally, hfind, questionVotes_reset st qid]

/-- C9 witness: resetting the closed, revealed, frozen question `q9` (which
has one vote) leaves no votes, a zero tally, and a cleared `DRAFT` row. -/
theorem c9_reset_clears_witness :
    questionVotes (pollsterControl c9Store "reset" "q9" 0).1 "q9" = []
      ∧ (getVoteTally (pollsterControl c9Store "reset" "q9" 0).1 "q9" 999).total = 0
      ∧ ∃ q', getQuestion (pollsterControl c9Store "reset" "q9" 0).1 "q9" = some q'
          ∧ q'.state = QState.DRAFT ∧ q'.isRevealed = false ∧ q'.isFrozen = false
          ∧ q'.openedAt = none ∧ q'.closedAt = none :=
  c9_reset_clears c9Store "q9" 0 999 c9Question (by decide)

/-- Auxiliary: the type-dependent branch of the tally loop does not touch the
segment counters. -/
theorem optStep_counts (qt : QType) (t : Nat) (acc : TallyAcc) (v : VoteEvent) :
    (optStep qt t acc v).room = acc.room ∧ (optStep qt t acc v).remote = acc.remote := by
  cases qt
  · rcases ho : v.payload.optionId with _ | oid <;> simp [optStep, ho]
  · rcases hv : v.payload.value with _ | val <;> simp [optStep, hv]
  · rcases he : v.payload.emoji with _ | e
    · simp [optStep, he]
    · by_cases h0 : e = "" <;> simp [optStep, he, h0]

/-- Auxiliary: `bySegment[segment]++` adds exactly one to the two segment
counters combined when the segment is `"room"` or `"remote"` (a junk segment
increments neither). -/
theorem segStep_count (acc : TallyAcc) (v : VoteEvent)
    (hv : v.segment = "room" ∨ v.segment = "remote") :
    (segStep acc v).room + (segStep acc v).remote = acc.room + acc.remote + 1 := by
  have hrr : (("remote" : String) == "room") = false := by decide
  rcases hv with h | h <;> simp [segStep, h, hrr] <;> omega

/-- Auxiliary: over the whole loop the segment counters add up to the number
of scanned events, provided every scanned event's segment is `"room"` or
`"remote"`. -/
theorem tally_fold_count (qt : QType) (t : Nat) (votes : List VoteEvent) :
    ∀ acc : TallyAcc, (∀ v ∈ votes, v.segment = "room" ∨ v.segment = "remote") →
      (votes.foldl (tallyStep qt t) acc).room + (votes.foldl (tallyStep qt t) acc).remote
        = acc.room + acc.remote + votes.length := by
  induction votes with
  | nil => intro acc _; simp
  | cons v l ih =>
    intro acc hall
    simp only [List.foldl_cons, List.length_cons]
    rw [ih _ (fun w hw => hall w (List.mem_cons_of_mem v hw))]
    have h1 := optStep_counts qt t (segStep acc v) v
    have h2 := segStep_count acc v (hall v (List.mem_cons_self v l))
    simp only [tallyStep]
    omega

/-- Auxiliary: incrementing a counter object raises the sum of its counts by
one. -/
theorem sumCounts_bump (m : List (String × Nat)) (k : String) :
    sumCounts (bump m k) = sumCounts m + 1 := by
  induction m with
  | nil => simp [bump, sumCounts]
  | cons a l ih =>
    obtain ⟨k', n⟩ := a
    by_cases h : k' = k <;>
      simp [bump, h, sumCounts] at ih ⊢ <;> omega

/-- Auxiliary: `bySegment[segment]++` does not touch `byOption`. -/
theorem segStep_byOption (acc : TallyAcc) (v : VoteEvent) :
    (segStep acc v).byOption = acc.byOption := by
  unfold segStep
  split_ifs <;> rfl

/-- Auxiliary: for a multiple-choice or emoji question, an event whose
payload carries the tallied field adds exactly one `byOption` count. -/
theorem optStep_byOption_tallied (qt : QType) (t : Nat) (acc : TallyAcc) (v : VoteEvent)
    (hq : qt = QType.multiple_choice ∨ qt = QType.emoji)
    (hp : payloadTallied qt v.payload = true) :
    sumCounts (optStep qt t acc v).byOption = sumCounts acc.byOption + 1 := by
  rcases hq with h | h <;> subst h
  · rcases ho : v.payload.optionId with _ | oid
    · rw [payloadTallied, ho] at hp
      simp at hp
    · simp [optStep, ho, sumCounts_bump]
  · rcases he : v.payload.emoji with _ | e
    · rw [payloadTallied, he] at hp
      simp at hp
    · have h0 : ¬ e = "" := by
        rw [payloadTallied, he] at hp
        simpa using hp
      simp [optStep, he, h0, sumCounts_bump]

/-- Auxiliary: over the whole loop, when every payload carries the tallied
field, the `byOption` counts sum to the number of scanned events. -/
theorem tally_fold_byOption (qt : QType) (t : Nat)
    (hq : qt = QType.multiple_choice ∨ qt = QType.emoji) (votes : List VoteEvent) :
    ∀ acc : TallyAcc, (∀ v ∈ votes, payloadTallied qt v.payload = true) →
      sumCounts ((votes.foldl (tallyStep qt t) acc).byOption)
        = sumCounts acc.byOption + votes.length := by
  induction votes with
  | nil => intro acc _; simp
  | cons v l ih =>
    intro acc hall
    simp only [List.foldl_cons, List.length_cons]
    rw [ih _ (fun w hw => hall w (List.mem_cons_of_mem v hw))]
    have h1 := optStep_byOption_tallied qt t (segStep acc v) v hq
      (hall v (List.mem_cons_self v l))
    simp only [tallyStep]
    rw [h1, segStep_byOption]
    omega

/-- C2 (amended): for every question whose stored events all carry segment
`"room"` or `"remote"`,
`tally.total == tally.bySegment.room + tally.bySegment.remote` — an event
with any other segment string (storable, since the column is unconstrained
text and the handler does not validate) is counted in `total` but in neither
`bySegment` bucket.  For multiple-choice and emoji questions with such
segments, `tally.total` equals the sum of the counts in `tally.byOption`
whenever additionally every stored event's payload carries the field the
tally reads (`optionId` for multiple-choice, a truthy `emoji` for emoji) — an
event whose payload lacks it is counted in `total` and `bySegment` but in no
`byOption` bucket, and on a junk segment with a tallied payload the source's
`bySegmentAndOption[segment][key]` update crashes instead of producing a
tally at all. -/
theorem c2_tally_consistency_amended (st : Store) (qid : String) (now : Int) :
    ((∀ v ∈ questionVotes st qid, v.segment = "room" ∨ v.segment = "remote") →
      (getVoteTally st qid now).total
        = (getVoteTally st qid now).room + (getVoteTally st qid now).remote)
    ∧ (∀ q, getQuestion st qid = some q →
        (q.qtype = QType.multiple_choice ∨ q.qtype = QType.emoji) →
        (∀ v ∈ questionVotes st qid, v.segment = "room" ∨ v.segment = "remote") →
        (∀ v ∈ questionVotes st qid, payloadTallied q.qtype v.payload = true) →
        (getVoteTally st qid now).total
          = sumCounts ((getVoteTally st qid now).byOption.getD [])) := by
  constructor
  · intro hseg
    rcases hq : getQuestion st qid with _ | q
    · simp [getVoteTally, hq]
    · simp only [getVoteTally, hq]
      rw [tally_fold_count _ _ _ initAcc hseg]
      simp [initAcc]
  · intro q hq htype _ hall
    simp only [getVoteTally, hq, Option.getD_some]
    rw [tally_fold_byOption q.qtype (questionVotes st qid).length htype
      (questionVotes st qid) initAcc hall]
    simp [initAcc, sumCounts]

/-- C2 amended witness: on a store whose single multiple-choice vote comes
from segment `remote` and carries `optionId`, both consistency equations
hold. -/
theorem c2_tally_consistency_amended_witness :
    ((getVoteTally c2GoodStore "q2" 0).total
        = (getVoteTally c2GoodStore "q2" 0).room + (getVoteTally c2GoodStore "q2" 0).remote)
    ∧ (getVoteTally c2GoodStore "q2" 0).total
        = sumCounts ((getVoteTally c2GoodStore "q2" 0).byOption.getD []) :=
  ⟨(c2_tally_consistency_amended c2GoodStore "q2" 0).1 (by decide),
   (c2_tally_consistency_amended c2GoodStore "q2" 0).2 c2Question (by decide)
     (Or.inl rfl) (by decide) (by decide)⟩

/-- Auxiliary: a state update changes neither the id nor the session id of a
row. -/
theorem updQ_id (qid : String) (s : QState) (now : Int) (q : Question) :
    (updQ qid s now q).id = q.id ∧ (updQ qid s now q).sessionId = q.sessionId := by
  unfold updQ
  split
  · cases s <;> simp [applyState]
  · exact ⟨rfl, rfl⟩

/-- Auxiliary: `updateQuestionState` leaves the votes table unchanged. -/
theorem updateQuestionState_votes (st : Store) (qid : String) (s : QState) (now : Int) :
    (updateQuestionState st qid s now).votes = st.votes := rfl

/-- Auxiliary: the force-close loop leaves the votes table unchanged. -/
theorem closeFold_votes (tid : String) (now : Int) (qs : List Question) :
    ∀ st : Store, (qs.foldl (closeStep tid now) st).votes = st.votes := by
  induction qs with
  | nil => intro st; rfl
  | cons a l ih =>
    intro st
    simp only [List.foldl_cons]
    rw [ih]
    unfold closeStep
    split <;> rfl

/-- Auxiliary: the force-close loop acts element-wise on the questions
table. -/
theorem closeFold_questions (tid : String) (now : Int) (qs : List Question) :
    ∀ st : Store,
      (qs.foldl (closeStep tid now) st).questions
        = st.questions.map (closePt tid now qs) := by
  induction qs with
  | nil =>
    intro st
    have h0 : closePt tid now [] = fun x => x := rfl
    simp [h0]
  | cons a l ih =>
    intro st
    simp only [List.foldl_cons]
    rw [ih]
    by_cases hc : a.state = QState.LIVE ∧ ¬ a.id = tid
    · have h1 : closeStep tid now st a = updateQuestionState st a.id QState.CLOSED now := by
        simp [closeStep, hc.1, hc.2]
      have h2 : closePt tid now (a :: l)
          = fun x => closePt tid now l (updQ a.id QState.CLOSED now x) := by
        funext x
        simp [closePt, hc.1, hc.2]
      rw [h1, h2]
      unfold updateQuestionState
      simp [List.map_map, Function.comp]
    · have h1 : closeStep tid now st a = st := by
        rcases not_and_or.mp hc with h | h <;> simp [closeStep, h]
      have h2 : closePt tid now (a :: l) = closePt tid now l := by
        funext x
        rcases not_and_or.mp hc with h | h <;> simp [closePt, h]
      rw [h1, h2]

/-- Auxiliary: the force-close loop changes neither ids nor session ids. -/
theorem closePt_id (tid : String) (now : Int) (qs : List Question) :
    ∀ x : Question, (closePt tid now qs x).id = x.id
      ∧ (closePt tid now qs x).sessionId = x.sessionId := by
  induction qs with
  | nil => intro x; exact ⟨rfl, rfl⟩
  | cons a l ih =>
    intro x
    have hstep : closePt tid now (a :: l) x
        = closePt tid now l
            (if a.state == QState.LIVE && a.id != tid then
              updQ a.id QState.CLOSED now x
            else x) := rfl
    rw [hstep]
    obtain ⟨h1, h2⟩ := ih
      (if a.state == QState.LIVE && a.id != tid then updQ a.id QState.CLOSED now x else x)
    constructor
    · rw [h1]
      split
      · exact (updQ_id _ _ _ _).1
      · rfl
    · rw [h2]
      split
      · exact (updQ_id _ _ _ _).2
      · rfl

/-- Auxiliary: the force-close loop never raises a row to `LIVE`. -/
theorem closePt_live (tid : String) (now : Int) (qs : List Question) :
    ∀ x : Question, (closePt tid now qs x).state = QState.LIVE →
      x.state = QState.LIVE := by
  induction qs with
  | nil => intro x h; exact h
  | cons a l ih =>
    intro x h
    have hstep : closePt tid now (a :: l) x
        = closePt tid now l
            (if a.state == QState.LIVE && a.id != tid then
              updQ a.id QState.CLOSED now x
            else x) := rfl
    rw [hstep] at h
    have h' := ih _ h
    by_cases hc : (a.state == QState.LIVE && a.id != tid) = true
    · rw [if_pos hc] at h'
      unfold updQ at h'
      by_cases hid : (x.id == a.id) = true
      · rw [if_pos hid] at h'
        simp [applyState] at h'
      · rw [if_neg (by simp [hid])] at h'
        exact h'
    · rw [if_neg hc] at h'
      exact h'

/-- Auxiliary: a row whose id matches no snapshot entry is untouched by the
force-close loop. -/
theorem closePt_of_no_match (tid : String) (now : Int) (qs : List Question) :
    ∀ x : Question, (∀ qq ∈ qs, ¬ qq.id = x.id) → closePt tid now qs x = x := by
  induction qs with
  | nil => intro x _; rfl
  | cons a l ih =>
    intro x hx
    have hstep : closePt tid now (a :: l) x
        = closePt tid now l
            (if a.state == QState.LIVE && a.id != tid then
              updQ a.id QState.CLOSED now x
            else x) := rfl
    rw [hstep]
    have hne : ¬ a.id = x.id := hx a (List.mem_cons_self a l)
    have hid : (x.id == a.id) = false :=
      beq_eq_false_iff_ne.mpr (fun h => hne h.symm)
    have hif : (if a.state == QState.LIVE && a.id != tid then
        updQ a.id QState.CLOSED now x else x) = x := by
      split
      · simp [updQ, hid]
      · rfl
    rw [hif]
    exact ih x (fun qq hq => hx qq (List.mem_cons_of_mem a hq))

/-- Auxiliary: a `LIVE` row other than the target that occurs in the snapshot
is closed by the force-close loop. -/
theorem closePt_kill (tid : String) (now : Int) (qs : List Question)
    (hnodup : (qs.map Question.id).Nodup) (x : Question) (hx : x ∈ qs)
    (hlive : x.state = QState.LIVE) (hne : ¬ x.id = tid) :
    (closePt tid now qs x).state = QState.CLOSED := by
  obtain ⟨s, t, rfl⟩ := List.append_of_mem hx
  rw [List.map_append, List.map_cons, List.nodup_append] at hnodup
  obtain ⟨hs, hxt, hdisj⟩ := hnodup
  rw [List.nodup_cons] at hxt
  obtain ⟨hxnott, _⟩ := hxt
  have hsne : ∀ qq ∈ s, ¬ qq.id = x.id := by
    intro qq hq heq
    have hmem := hdisj (List.mem_map_of_mem Question.id hq)
    rw [heq] at hmem
    exact hmem (List.mem_cons_self _ _)
  have htne : ∀ qq ∈ t, ¬ qq.id = x.id := by
    intro qq hq heq
    exact hxnott (heq ▸ List.mem_map_of_mem Question.id hq)
  have happ : closePt tid now (s ++ x :: t) x
      = closePt tid now (x :: t) (closePt tid now s x) := by
    unfold closePt
    rw [List.foldl_append]
  rw [happ, closePt_of_no_match tid now s x hsne]
  have hc : (x.state == QState.LIVE && x.id != tid) = true := by
    simp [hlive, hne]
  have hstep : closePt tid now (x :: t) x
      = closePt tid now t (updQ x.id QState.CLOSED now x) := by
    show closePt tid now t
        (if x.state == QState.LIVE && x.id != tid then
          updQ x.id QState.CLOSED now x
        else x) = _
    rw [if_pos hc]
  rw [hstep]
  have hu : updQ x.id QState.CLOSED now x = applyState QState.CLOSED now x := by
    simp [updQ]
  rw [hu]
  have hfix : closePt tid now t (applyState QState.CLOSED now x)
      = applyState QState.CLOSED now x := by
    apply closePt_of_no_match
    intro qq hq
    have hsame : (applyState QState.CLOSED now x).id = x.id := rfl
    rw [hsame]
    exact htne qq hq
  rw [hfix]
  rfl

/-- Auxiliary: `goLiveStore` leaves the votes table unchanged. -/
theorem goLiveStore_votes (st : Store) (sid tid : String) (now : Int) :
    (goLiveStore st sid tid now).votes = st.votes := by
  unfold goLiveStore
  rw [updateQuestionState_votes, closeFold_votes]

/-- Auxiliary: `goLiveStore` acts element-wise on the questions table. -/
theorem goLiveStore_questions (st : Store) (sid tid : String) (now : Int) :
    (goLiveStore st sid tid now).questions
      = st.questions.map
          (fun x => updQ tid QState.LIVE now
            (closePt tid now (questionsBySession st sid) x)) := by
  unfold goLiveStore updateQuestionState
  rw [closeFold_questions, List.map_map]
  rfl

/-- Auxiliary: `goLiveStore` preserves the list of question ids. -/
theorem goLiveStore_ids (st : Store) (sid tid : String) (now : Int) :
    (goLiveStore st sid tid now).questions.map Question.id
      = st.questions.map Question.id := by
  rw [goLiveStore_questions, List.map_map]
  congr 1
  funext x
  show (updQ tid QState.LIVE now (closePt tid now (questionsBySession st sid) x)).id = x.id
  rw [(updQ_id _ _ _ _).1, (closePt_id _ _ _ x).1]

/-- Auxiliary: after `goLiveStore`, every `LIVE` row of the session is the
target. -/
theorem goLiveStore_live_imp (st : Store) (sid tid : String) (now : Int)
    (hnodup : (st.questions.map Question.id).Nodup) :
    ∀ x ∈ (goLiveStore st sid tid now).questions,
      x.sessionId = sid → x.state = QState.LIVE → x.id = tid := by
  intro x hx hsid hlive
  rw [goLiveStore_questions] at hx
  obtain ⟨x0, hx0, rfl⟩ := List.mem_map.mp hx
  by_cases hid : ((closePt tid now (questionsBySession st sid) x0).id == tid) = true
  · rw [(updQ_id _ _ _ _).1]
    exact beq_iff_eq.mp hid
  · have hupd : updQ tid QState.LIVE now (closePt tid now (questionsBySession st sid) x0)
        = closePt tid now (questionsBySession st sid) x0 := by
      simp [updQ, hid]
    rw [hupd] at hsid hlive ⊢
    have hx0live : x0.state = QState.LIVE :=
      closePt_live tid now (questionsBySession st sid) x0 hlive
    have hx0sid : x0.sessionId = sid := by
      have h := (closePt_id tid now (questionsBySession st sid) x0).2
      rw [h] at hsid
      exact hsid
    have hx0mem : x0 ∈ questionsBySession st sid :=
      List.mem_filter.mpr ⟨hx0, by simp [hx0sid]⟩
    have hqsnodup : ((questionsBySession st sid).map Question.id).Nodup :=
      List.Nodup.sublist (List.Sublist.map Question.id (List.filter_sublist st.questions))
        hnodup
    by_cases hxid : x0.id = tid
    · exfalso
      apply hid
      rw [(closePt_id tid now (questionsBySession st sid) x0).1, hxid]
      exact beq_self_eq_true tid
    · have hkill := closePt_kill tid now (questionsBySession st sid) hqsnodup x0
        hx0mem hx0live hxid
      rw [hkill] at hlive
      exact absurd hlive (by simp)

/-- Auxiliary: a list of rows whose matches all share one id, with no
duplicate ids, matches at most once. -/
theorem countP_le_one_of_id (l : List Question) (p : Question → Bool) (t : String)
    (hallid : ∀ x ∈ l, p x = true → x.id = t)
    (hnodup : (l.map Question.id).Nodup) :
    l.countP p ≤ 1 := by
  induction l with
  | nil => simp
  | cons a l ih =>
    rw [List.map_cons, List.nodup_cons] at hnodup
    obtain ⟨hna, hnl⟩ := hnodup
    rw [List.countP_cons]
    by_cases hpa : p a = true
    · have hzero : l.countP p = 0 := by
        rw [List.countP_eq_zero]
        intro b hb hpb
        apply hna
        have hbt : b.id = t := hallid b (List.mem_cons_of_mem a hb) hpb
        have hat : a.id = t := hallid a (List.mem_cons_self a l) hpa
        have hab : a.id = b.id := by rw [hat, hbt]
        rw [hab]
        exact List.mem_map_of_mem Question.id hb
      rw [hzero, if_pos hpa]
    · rw [if_neg hpa]
      simpa using ih (fun x hx hp => hallid x (List.mem_cons_of_mem a hx) hp) hnl

/-- Auxiliary: the store produced by a `go_live` control message. -/
theorem pollsterControl_goLive_store (st : Store) (tgt : String) (now : Int) :
    (pollsterControl st "go_live" tgt now).1
      = match getQuestion st tgt with
        | none => st
        | some q => goLiveStore st q.sessionId tgt now := by
  rcases hq : getQuestion st tgt with _ | q <;>
    simp [pollsterControl, hq]

/-- Auxiliary: a `go_live` control message preserves the list of question
ids. -/
theorem pollsterControl_goLive_ids (st : Store) (tgt : String) (now : Int) :
    (pollsterControl st "go_live" tgt now).1.questions.map Question.id
      = st.questions.map Question.id := by
  rw [pollsterControl_goLive_store]
  rcases hq : getQuestion st tgt with _ | t
  · rfl
  · exact goLiveStore_ids st t.sessionId tgt now

/-- Auxiliary: one `go_live` control message preserves the single-live
invariant of every session. -/
theorem goLive_step_invariant (st : Store) (sid tgt : String) (now : Int)
    (hnodup : (st.questions.map Question.id).Nodup)
    (h1 : atMostOneLive st sid) :
    atMostOneLive (pollsterControl st "go_live" tgt now).1 sid := by
  rw [pollsterControl_goLive_store]
  rcases hq : getQuestion st tgt with _ | t
  · exact h1
  · have hq2 : st.questions.find? (fun q => q.id == tgt) = some t := hq
    have htid : t.id = tgt := by
      have h := List.find?_some hq2
      exact beq_iff_eq.mp h
    have htmem : t ∈ st.questions := List.mem_of_find?_eq_some hq2
    show atMostOneLive (goLiveStore st t.sessionId tgt now) sid
    by_cases hsid : t.sessionId = sid
    · rw [hsid]
      unfold atMostOneLive
      apply countP_le_one_of_id _ _ tgt
      · intro x hx hpx
        simp only [Bool.and_eq_true, beq_iff_eq] at hpx
        exact goLiveStore_live_imp st sid tgt now hnodup x hx hpx.1 hpx.2
      · rw [goLiveStore_ids]
        exact hnodup
    · unfold atMostOneLive at h1 ⊢
      rw [goLiveStore_questions, List.countP_map]
      rw [List.countP_congr ?_]
      · exact h1
      intro x hx
      by_cases hxs : x.sessionId = sid
      · have hclose : closePt tgt now (questionsBySession st t.sessionId) x = x := by
          apply closePt_of_no_match
          intro qq hq' heq
          obtain ⟨hqmem, hqsid⟩ := List.mem_filter.mp hq'
          have hqx : qq = x := List.inj_on_of_nodup_map hnodup hqmem hx heq
          rw [hqx] at hqsid
          rw [beq_iff_eq] at hqsid
          rw [hxs] at hqsid
          exact hsid hqsid.symm
        have hxid : (x.id == tgt) = false := by
          rw [beq_eq_false_iff_ne]
          intro heq
          have hxt : x = t :=
            List.inj_on_of_nodup_map hnodup hx htmem (by rw [heq, htid])
          rw [hxt] at hxs
          exact hsid hxs
        have hFx : updQ tgt QState.LIVE now
            (closePt tgt now (questionsBySession st t.sessionId) x) = x := by
          rw [hclose]
          simp [updQ, hxid]
        simp only [Function.comp_apply, hFx]
      · have hsF : (updQ tgt QState.LIVE now
            (closePt tgt now (questionsBySession st t.sessionId) x)).sessionId
              = x.sessionId := by
          rw [(updQ_id _ _ _ _).2, (closePt_id _ _ _ _).2]
        constructor
        · intro hcontra
          simp only [Function.comp_apply, Bool.and_eq_true, beq_iff_eq] at hcontra
          rw [hsF] at hcontra
          exact absurd hcontra.1 hxs
        · intro hcontra
          simp only [Bool.and_eq_true, beq_iff_eq] at hcontra
          exact absurd hcontra.1 hxs

/-- C5: after any sequence of `go_live` control actions, a session that
started with at most one `LIVE` question still has at most one `LIVE`
question: the `go_live` case first force-closes every other `LIVE` question
of the target's session and then sets the target `LIVE`.  (The hypothesis
that question ids are unique reflects the primary key of the `questions`
table.) -/
theorem c5_single_live_invariant (st : Store) (sid : String)
    (targets : List String) (now : Int)
    (hnodup : (st.questions.map Question.id).Nodup)
    (hinit : atMostOneLive st sid) :
    atMostOneLive (goLiveSeq st targets now) sid := by
  induction targets generalizing st with
  | nil => exact hinit
  | cons t ts ih =>
    show atMostOneLive (goLiveSeq (pollsterControl st "go_live" t now).1 ts now) sid
    exact ih (pollsterControl st "go_live" t now).1
      (by rw [pollsterControl_goLive_ids]; exact hnodup)
      (goLive_step_invariant st sid t now hnodup hinit)

/-- C5 witness: in session `s5` (question `a` LIVE, question `b` DRAFT) the
action sequence `go_live b`, `go_live a`, `go_live b` leaves at most one
`LIVE` question. -/
theorem c5_single_live_invariant_witness :
    atMostOneLive (goLiveSeq c5Store ["b", "a", "b"] 10) "s5" :=
  c5_single_live_invariant c5Store "s5" ["b", "a", "b"] 10 (by decide)
    (by unfold atMostOneLive; decide)

end Pollmetry
